import Mathlib

/-
Verification of the mycoder agent runtime core: a shallow embedding of
the tool registry (src/src/mycoder/agent/tool_manager.py), the tool
contract (src/mycoder/agent/tools/base.py), the message model
(src/src/mycoder/agent/llm/base.py), the provider facade
(src/src/mycoder/agent/llm/init), the Ollama free-text tool-call scan
(src/mycoder/agent/llm/ollama.py) and the sub-agent supervisor
(src/mycoder/agent/tools/sub_agent.py), together with theorems settling
the specification claims about them.

Python machine model: exceptions are modelled with Except / Option;
a method that may mutate its object and may raise is modelled as a
function returning the updated state together with an optional
exception, where the returned state reflects exactly the mutations
performed before the raise.  dicts are insertion-ordered association
lists.  Only Exception subclasses are modelled (BaseException escapes
such as KeyboardInterrupt are outside the model, as they are for the
Python idiom except Exception).
-/

namespace MyCoder

/-- Apostrophe character, used to build the error message literals of the
source without bare quote characters in string literals. -/
def sq : Char := Char.ofNat 39

/-- Apostrophe as a one-character string. -/
def sqs : String := String.singleton sq

/-! ## Generic Python / JSON value model

One value type serves both for Python runtime values handed to tools and
for parsed JSON (ollama.py feeds json.loads output straight into Python
structures, so a single model is faithful).  Numeric literals are kept as
their lexeme: no claim inspects numeric values, only structure. -/

/-- A JSON-like Python value. -/
inductive Json where
  | null : Json
  | bool (b : Bool) : Json
  | num (lexeme : String) : Json
  | str (s : String) : Json
  | arr (elems : List Json) : Json
  | obj (members : List (String × Json)) : Json
  deriving Repr, Inhabited

/-- Python dict key membership (`"k" in d`); last-wins semantics match
dict construction, keys are unique in all inputs we consider.  On a
non-dict value this is False (unreachable in the embedded code paths). -/
def Json.hasKey (j : Json) (k : String) : Bool :=
  match j with
  | .obj members => members.any (fun kv => kv.1 == k)
  | _ => false

/-- Python dict indexing `d[k]`; duplicate keys resolve to the last
occurrence, as in Python dict construction. -/
def Json.get (j : Json) (k : String) : Option Json :=
  match j with
  | .obj members => members.reverse.lookup k
  | _ => none

/-! ## Error taxonomy — src/src/mycoder/utils/errors.py

`ToolNotFoundError` and `ToolExecutionError` are sibling subclasses of
`ToolError` (errors.py lines 44-63); in particular a `ToolNotFoundError`
is *not* a `ToolExecutionError`.  `ToolExecutionError.__init__` stores
the tool name and original error and sets the exception text to the
message followed by the tool name in a parenthesized Tool suffix
(errors.py line 63). -/

/-- A raised Python exception, as the embedded code can observe it:
its class name (`type(e).__name__`) and its `str(e)` payload. -/
inductive PyExc where
  | valueError (msg : String)
  | toolNotFoundError (msg : String)
  | toolExecutionError (message : String) (toolName : String)
      (originalError : Option PyExc)
  | validationError (offendingFields : List String)
  | otherExc (typeName : String) (msg : String)
  deriving Repr

/-- Model of `type(e).__name__`. -/
def PyExc.typeName : PyExc → String
  | .valueError _ => "ValueError"
  | .toolNotFoundError _ => "ToolNotFoundError"
  | .toolExecutionError _ _ _ => "ToolExecutionError"
  | .validationError _ => "ValidationError"
  | .otherExc n _ => n

/-- Model of `str(e)`.  For `ToolExecutionError` this is the text set by its
`__init__` (errors.py line 63); for a pydantic `ValidationError` the text
renders the offending field names. -/
def PyExc.msg : PyExc → String
  | .valueError m => m
  | .toolNotFoundError m => m
  | .toolExecutionError message toolName _ =>
      message ++ " (Tool: " ++ toolName ++ ")"
  | .validationError fields =>
      "validation error for fields " ++ String.intercalate ", " fields
  | .otherExc _ m => m

/-! ## Tool contract — src/mycoder/agent/tools/base.py

A tool declares a pydantic args model.  The repository uses the
pydantic v2 API throughout (model_dump, model_fields, field_validator
are v2-only names), so the library boundary is modelled with v2
semantics.  A field has a name, a declared annotation type, a required
flag, an optional default and an optional description; model
construction checks that required fields are present and present
values match their declared type, ignores extra keys, and fills
defaults (pydantic coercion of near-miss scalars is abstracted away;
no claim depends on it). -/

/-- Python type annotations that `_get_property_schema`
(base.py lines 141-199) distinguishes. -/
inductive PyType where
  | strT | intT | floatT | boolT
  | listOf (item : PyType)
  | listAnyT
  | dictT
  | otherT
  | optionalT (inner : PyType)
  deriving Repr, DecidableEq

/-- One declared field of a tool's args model. -/
structure FieldSpec where
  name : String
  ftype : PyType
  required : Bool
  default : Option Json := none
  description : Option String := none

/-- Structural check that a value fits a declared annotation
(model of pydantic per-field validation). -/
def typeMatches : PyType → Json → Bool
  | .strT, .str _ => true
  | .intT, .num lex => !(lex.any (fun c => c == '.' || c == 'e' || c == 'E'))
  | .floatT, .num _ => true
  | .boolT, .bool _ => true
  | .listOf item, .arr xs => xs.all (typeMatches item)
  | .listAnyT, .arr _ => true
  | .dictT, .obj _ => true
  | .otherT, _ => true
  | .optionalT _, .null => true
  | .optionalT inner, v => typeMatches inner v
  | _, _ => false

/-- The fields the pydantic args model rejects: required fields that are
absent and present fields whose value does not fit the declared type. -/
def offendingFields (schema : List FieldSpec)
    (kwargs : List (String × Json)) : List String :=
  schema.filterMap (fun f =>
    match kwargs.lookup f.name with
    | some v => if typeMatches f.ftype v then none else some f.name
    | none => if f.required then some f.name else none)

/-- The exception that actually escapes `validate_args` on invalid
arguments: base.py line 58 tries to re-raise with
`ValidationError(e.errors(), model=self.args_schema)`, but under
pydantic v2 `ValidationError` is the Rust-defined
`pydantic_core.ValidationError`, which has no Python constructor, so
the call itself raises a bare `TypeError` that names no fields.  The
library's exact message text is version-dependent; no theorem relies
on it, only on the kind. -/
def pydanticReRaiseTypeError : PyExc :=
  .otherExc "TypeError"
    "ValidationError cannot be instantiated directly"

/-- Model of `Tool.validate_args` (base.py lines 40-61) under the
pydantic v2 API this repository requires: constructing the args model
either validates — and `model_dump()` returns the declared fields in
declaration order, with defaults filled and extra keys dropped — or
raises a `pydantic_core.ValidationError`, which the `except` clause at
line 56 catches; the re-raise at line 58 then itself raises the bare
`TypeError` above, and that is what escapes. -/
def validateArgs (schema : List FieldSpec) (kwargs : List (String × Json)) :
    Except PyExc (List (String × Json)) :=
  if (offendingFields schema kwargs).isEmpty then
    .ok (schema.filterMap (fun f =>
      match kwargs.lookup f.name with
      | some v => some (f.name, v)
      | none => f.default.map (fun d => (f.name, d))))
  else
    .error pydanticReRaiseTypeError

/-- A constructed tool instance (base.py class `Tool`): name,
description, args schema and the abstract `run` body. -/
structure Tool where
  name : String
  description : String
  argsSchema : List FieldSpec
  run : List (String × Json) → Except PyExc Json

/-- Model of `Tool.execute` (base.py lines 81-101): validate, then run the tool
body on the validated arguments. -/
def Tool.execute (t : Tool) (kwargs : List (String × Json)) :
    Except PyExc Json :=
  match validateArgs t.argsSchema kwargs with
  | .error e => .error e
  | .ok validated => t.run validated

/-- A tool class to be instantiated by the registry.  `Tool.__init__`
(base.py lines 28-38) raises `ValueError` when `name` or `description`
is empty; otherwise instantiation yields the tool. -/
structure ToolClass where
  name : String
  description : String
  argsSchema : List FieldSpec
  run : List (String × Json) → Except PyExc Json

/-- Model of `tool_class()` — instantiation with the `__init__` validation of
base.py lines 28-38. -/
def ToolClass.instantiate (c : ToolClass) : Except PyExc Tool :=
  if c.name = "" then
    .error (.valueError ("Tool must define a " ++ sqs ++ "name" ++ sqs ++
      " attribute"))
  else if c.description = "" then
    .error (.valueError ("Tool must define a " ++ sqs ++ "description" ++
      sqs ++ " attribute"))
  else
    .ok { name := c.name, description := c.description,
          argsSchema := c.argsSchema, run := c.run }

/-! ## Tool registry — src/src/mycoder/agent/tool_manager.py

`self.tools` is an insertion-ordered dict from tool name to instance.
A mutating-and-possibly-raising method returns the updated state paired
with the optional raised exception; the returned state reflects exactly
the mutations performed before the raise. -/

/-- Model of `ToolManager` state: the `self.tools` dict. -/
structure ToolManager where
  tools : List (String × Tool)

/-- Model of `ToolManager.register_tool` (tool_manager.py lines 38-59):
instantiate the class, raise `ValueError` on a name collision, else add
the tool under its name. -/
def ToolManager.register_tool (m : ToolManager) (toolClass : ToolClass) :
    ToolManager × Option PyExc :=
  match toolClass.instantiate with
  | .error e => (m, some e)
  | .ok tool =>
    if (m.tools.lookup tool.name).isSome then
      (m, some (.valueError ("A tool with name " ++ sqs ++ tool.name ++
        sqs ++ " is already registered")))
    else
      ({ tools := m.tools ++ [(tool.name, tool)] }, none)

/-- Model of `ToolManager.get_tool` (tool_manager.py lines 74-90): dict lookup,
raising `ToolNotFoundError` when absent. -/
def ToolManager.get_tool (m : ToolManager) (name : String) :
    Except PyExc Tool :=
  match m.tools.lookup name with
  | some t => .ok t
  | none => .error (.toolNotFoundError ("No tool found with name " ++
      sqs ++ name ++ sqs))

/-- Model of `ToolManager.has_tool` (tool_manager.py lines 92-102). -/
def ToolManager.has_tool (m : ToolManager) (name : String) : Bool :=
  (m.tools.lookup name).isSome

/-- Outcome of `execute_tool` when it returns (rather than raises):
either the tool's result value, or the structured error dict
with keys error and error_type built at tool_manager.py
lines 170-173. -/
inductive ExecOutcome where
  | value (v : Json)
  | errObj (error : String) (errorType : String)
  deriving Repr

/-- Model of `ToolManager.execute_tool` (tool_manager.py lines 134-182): look up
the tool and execute it inside one `try`; on any exception, either
(handle_errors) return the structured error dict, or re-raise, wrapping
anything that is not already a `ToolExecutionError`. -/
def ToolManager.execute_tool (m : ToolManager) (name : String)
    (arguments : List (String × Json)) (handleErrors : Bool) :
    Except PyExc ExecOutcome :=
  match (do
      let tool ← m.get_tool name
      tool.execute arguments : Except PyExc Json) with
  | .ok result => .ok (.value result)
  | .error e =>
    if handleErrors then
      .ok (.errObj ("Error executing tool " ++ sqs ++ name ++ sqs ++
        ": " ++ e.msg) e.typeName)
    else
      match e with
      | .toolExecutionError message toolName originalError =>
          .error (.toolExecutionError message toolName originalError)
      | _ => .error (.toolExecutionError "Failed to execute tool" name
          (some e))

/-! ## Message model — src/src/mycoder/agent/llm/base.py -/

/-- Model of `MessageRole` (llm/base.py lines 15-21). -/
inductive MessageRole where
  | system | user | assistant | tool
  deriving Repr, DecidableEq

/-- Model of `ToolCallResult` (llm/base.py lines 38-43). -/
structure ToolCallResult where
  tool_name : String
  result : Json
  error : Option String := none

/-- Model of `ToolCall` (llm/base.py lines 46-52). -/
structure ToolCall where
  id : String
  name : String
  arguments : List (String × Json)
  result : Option ToolCallResult := none

/-- Model of `MessageContent` (llm/base.py lines 24-34). -/
structure MessageContent where
  type : String := "text"
  text : Option String := none

/-- Model of `Message` (llm/base.py lines 55-65); `content` is
`Union[str, MessageContent]`. -/
structure Message where
  role : MessageRole
  content : String ⊕ MessageContent
  tool_calls : Option (List ToolCall) := none
  tool_call_id : Option String := none

/-- Model of `Message.is_tool_call` (llm/base.py lines 63-65):
`self.role == MessageRole.ASSISTANT and self.tool_calls is not None`. -/
def Message.is_tool_call (m : Message) : Bool :=
  m.role == .assistant && m.tool_calls.isSome

/-! ## Provider facade — src/src/mycoder/agent/llm/init module

The adapter instance returned by the factory is modelled by its backend
tag; configuration kwargs do not affect which backend is selected. -/

/-- The three provider backends of the `PROVIDERS` table. -/
inductive ProviderBackend where
  | openai | anthropic | ollama
  deriving Repr, DecidableEq

/-- Model of `PROVIDERS` (llm init lines 64-68), insertion order preserved. -/
def PROVIDERS : List (String × ProviderBackend) :=
  [("openai", .openai), ("anthropic", .anthropic), ("ollama", .ollama)]

/-- Model of `str(list(PROVIDERS.keys()))` as Python renders it. -/
def supportedTypesRepr : String :=
  "[" ++ sqs ++ "openai" ++ sqs ++ ", " ++ sqs ++ "anthropic" ++ sqs ++
  ", " ++ sqs ++ "ollama" ++ sqs ++ "]"

/-- Model of `get_provider` (llm init lines 71-87). -/
def get_provider (providerType : String) : Except PyExc ProviderBackend :=
  match PROVIDERS.lookup providerType with
  | none => .error (.valueError ("Unsupported provider type: " ++
      providerType ++ ". Supported types: " ++ supportedTypesRepr))
  | some cls => .ok cls

/-- Model of `create_provider` (llm init lines 90-117): explicit chain over the
three supported identifiers, else `ValueError`. -/
def create_provider (providerType : String) : Except PyExc ProviderBackend :=
  if providerType = "openai" then .ok .openai
  else if providerType = "anthropic" then .ok .anthropic
  else if providerType = "ollama" then .ok .ollama
  else .error (.valueError ("Unsupported provider type: " ++
    providerType ++ ". Supported types: " ++ supportedTypesRepr))

/-! ## Schema generation — base.py lines 103-199 and
tool_manager.py lines 122-132 -/

/-- The `items` clause for list element types
(base.py lines 178-189). -/
def itemSchema : PyType → Json
  | .strT => .obj [("type", .str "string")]
  | .intT => .obj [("type", .str "integer")]
  | .floatT => .obj [("type", .str "number")]
  | .boolT => .obj [("type", .str "boolean")]
  | _ => .obj [("type", .str "object")]

/-- Model of `Tool._get_property_schema` (base.py lines 141-199): unwrap a
one-level Optional, map primitives to JSON schema types, typed lists to
arrays with an `items` clause, dicts and anything unknown to an opaque
object, and append the field description when present. -/
def getPropertySchema (f : FieldSpec) : Json :=
  let ann := match f.ftype with
    | .optionalT inner => inner
    | t => t
  let base : List (String × Json) :=
    match ann with
    | .strT => [("type", .str "string")]
    | .intT => [("type", .str "integer")]
    | .floatT => [("type", .str "number")]
    | .boolT => [("type", .str "boolean")]
    | .listOf item => [("type", .str "array"), ("items", itemSchema item)]
    | .listAnyT => [("type", .str "array")]
    | .dictT => [("type", .str "object")]
    | _ => [("type", .str "object")]
  .obj (match f.description with
    | some d => base ++ [("description", .str d)]
    | none => base)

/-- Model of `Tool._get_parameters_schema` (base.py lines 122-139).
The condition at line 137 is written `if field.is_required` without
call parentheses; under pydantic v2 `FieldInfo.is_required` is a
method, so the bound-method reference is always truthy and every
field's name is emitted in the required array, not only the required
ones. -/
def getParametersSchema (schema : List FieldSpec) : Json :=
  .obj [("type", .str "object"),
        ("properties",
          .obj (schema.map (fun f => (f.name, getPropertySchema f)))),
        ("required",
          .arr (schema.map (fun f => Json.str f.name)))]

/-- Model of `Tool.get_schema_for_llm` (base.py lines 103-120): the provider
argument is accepted but the returned schema is built from the tool
alone. -/
def Tool.get_schema_for_llm (t : Tool) (provider : String) : Json :=
  .obj [("name", .str t.name),
        ("description", .str t.description),
        ("parameters", getParametersSchema t.argsSchema)]

/-- Model of `ToolManager.get_tool_schemas_for_llm`
(tool_manager.py lines 122-132). -/
def ToolManager.get_tool_schemas_for_llm (m : ToolManager)
    (provider : String) : List Json :=
  m.tools.map (fun kv => kv.2.get_schema_for_llm provider)

/-! ## Sub-agent supervisor — src/mycoder/agent/tools/sub_agent.py

The asyncio task dict `_running_agents` and the cooperative transitions
are modelled as a state machine whose atomic steps are the scheduler
slices of the source coroutines (each embedded method body contains no
interior suspension point relevant to the dict).  `_run_agent` deletes
its own entry just before finishing (lines 158-168), and `cancel`
deletes the entry it consumed (lines 210-230), so every terminal
transition removes the unit from the tracking dict. -/

/-- State of one spawned asyncio task as the supervisor can observe
it while the task is still tracked. -/
inductive TaskState where
  | running
  | doneOk (result : Json)
  | doneErr (error : String)
  deriving Repr

/-- Supervisor state: the `_running_agents` dict. -/
structure SubAgentState where
  runningAgents : List (String × TaskState)

/-- Model of `del self._running_agents[agent_id]`. -/
def SubAgentState.remove (s : SubAgentState) (agentId : String) :
    SubAgentState :=
  ⟨s.runningAgents.filter (fun kv => kv.1 != agentId)⟩

/-- The record `get_status` returns for an untracked id
(sub_agent.py lines 172-176). -/
def notFoundStatus (agentId : String) : Json :=
  .obj [("status", .str "error"),
        ("error", .str ("Sub-agent with ID " ++ agentId ++ " not found"))]

/-- Model of `SubAgent.get_status` (sub_agent.py lines 170-198): pure query —
the method performs no mutation, so the state component of the result
is the input state. -/
def SubAgentState.get_status (s : SubAgentState) (agentId : String) :
    SubAgentState × Json :=
  match s.runningAgents.lookup agentId with
  | none => (s, notFoundStatus agentId)
  | some .running =>
      (s, .obj [("agent_id", .str agentId), ("status", .str "running")])
  | some (.doneOk r) =>
      (s, .obj [("agent_id", .str agentId), ("status", .str "completed"),
                ("result", r)])
  | some (.doneErr e) =>
      (s, .obj [("agent_id", .str agentId), ("status", .str "failed"),
                ("error", .str e)])

/-- The transitions by which a tracked unit reaches a terminal state:
`_run_agent` finishing successfully (lines 158-162), `_run_agent`
finishing with an error (lines 164-168), and `cancel` consuming the
unit (lines 210-230).  Each deletes the unit's entry from
`_running_agents`. -/
inductive TerminalStep : SubAgentState → String → SubAgentState → Prop where
  | finishOk : ∀ (s : SubAgentState) (agentId : String),
      s.runningAgents.lookup agentId = some .running →
      TerminalStep s agentId (s.remove agentId)
  | finishErr : ∀ (s : SubAgentState) (agentId : String),
      s.runningAgents.lookup agentId = some .running →
      TerminalStep s agentId (s.remove agentId)
  | cancelConsume : ∀ (s : SubAgentState) (agentId : String) (t : TaskState),
      s.runningAgents.lookup agentId = some t →
      TerminalStep s agentId (s.remove agentId)

/-! ## Backtracking regex engine for `FUNCTION_CALL_PATTERN`

src/mycoder/agent/llm/ollama.py lines 70-73 compiles the pattern

  three-backquotes (json|.*) \s* ( open-brace [\s\S]*? close-brace ) \s*
  three-backquotes  |  ( open-brace [\s\S]* close-brace )

and `_parse_response` calls `.search` on it.  The engine below
implements Python `re` semantics for the constructs this pattern uses:
leftmost match, left-first alternation, greedy and lazy star with full
backtracking, and capture groups.  The MULTILINE flag only changes
anchors, which the pattern does not contain; DOTALL is off, so the dot
does not match a newline while `[\s\S]` matches every character. -/

/-- Backquote character. -/
def bq : Char := Char.ofNat 96

/-- Opening brace character. -/
def lbrace : Char := Char.ofNat 123

/-- Closing brace character. -/
def rbrace : Char := Char.ofNat 125

/-- Python `\s` on ASCII input: space, tab, newline, carriage return,
form feed, vertical tab. -/
def isPyWs (c : Char) : Bool :=
  c == ' ' || c == '\t' || c == '\n' || c == '\r' ||
  c == Char.ofNat 12 || c == Char.ofNat 11

/-- The regex constructs appearing in `FUNCTION_CALL_PATTERN`. -/
inductive RE where
  | eps
  | ch (c : Char)
  | anyNoNL
  | anyCh
  | wsCh
  | seq (a b : RE)
  | alt (a b : RE)
  | starG (a : RE)
  | starL (a : RE)
  | group (n : Nat) (a : RE)
  deriving Repr

/-- Literal string as a regex. -/
def reLit : List Char → RE
  | [] => .eps
  | c :: cs => .seq (.ch c) (reLit cs)

/-- Backtracking matcher in continuation style: `reMatch fuel r s caps k`
tries to match `r` at the head of `s` and hands every admissible
suffix/captures pair to `k`, in Python priority order (first success
wins): left-first alternation, greedy star longest-first, lazy star
shortest-first.  The fuel bounds the recursion depth (structurally, so
that concrete runs reduce definitionally); one call chain descends the
fixed pattern tree and re-enters a starred sub-pattern only after
consuming input, so any fuel beyond a small multiple of the input
length is never exhausted and the semantics are exact. -/
def reMatch : Nat → RE → List Char → List (Nat × List Char) →
    (List Char → List (Nat × List Char) →
      Option (List (Nat × List Char))) →
    Option (List (Nat × List Char))
  | 0, _, _, _, _ => none
  | fuel + 1, r, s, caps, k =>
    match r with
    | .eps => k s caps
    | .ch c =>
      match s with
      | [] => none
      | c' :: t => if c' = c then k t caps else none
    | .anyNoNL =>
      match s with
      | [] => none
      | c' :: t => if c' = '\n' then none else k t caps
    | .anyCh =>
      match s with
      | [] => none
      | _ :: t => k t caps
    | .wsCh =>
      match s with
      | [] => none
      | c' :: t => if isPyWs c' then k t caps else none
    | .seq a b =>
      reMatch fuel a s caps (fun s' caps' => reMatch fuel b s' caps' k)
    | .alt a b =>
      (reMatch fuel a s caps k) <|> (reMatch fuel b s caps k)
    | .starG a =>
      (reMatch fuel a s caps (fun s' caps' =>
        if s'.length < s.length then
          reMatch fuel (.starG a) s' caps' k
        else none)) <|> k s caps
    | .starL a =>
      (k s caps) <|> (reMatch fuel a s caps (fun s' caps' =>
        if s'.length < s.length then
          reMatch fuel (.starL a) s' caps' k
        else none))
    | .group n a =>
      reMatch fuel a s caps (fun s' caps' =>
        k s' ((n, s.take (s.length - s'.length)) :: caps'))

/-- Fuel that `reMatch` can never exhaust on this input: the pattern
tree is a fixed constant and every star iteration consumes a
character. -/
def matchFuel (s : List Char) : Nat := 8 * s.length + 256

/-- Try to match anchored at each successive start position, leftmost
first: `re.search`.  Only the captures are needed downstream. -/
def reSearch (r : RE) : List Char → Option (List (Nat × List Char))
  | [] => reMatch (matchFuel []) r [] [] (fun _ caps => some caps)
  | c :: t =>
    match reMatch (matchFuel (c :: t)) r (c :: t) []
        (fun _ caps => some caps) with
    | some caps => some caps
    | none => reSearch r t

/-- Model of `FUNCTION_CALL_PATTERN` (ollama.py lines 70-73). -/
def FUNCTION_CALL_PATTERN : RE :=
  .alt
    (.seq (reLit [bq, bq, bq])
      (.seq (.group 1 (.alt (reLit "json".toList) (.starG .anyNoNL)))
        (.seq (.starG .wsCh)
          (.seq (.group 2 (.seq (.ch lbrace)
              (.seq (.starL .anyCh) (.ch rbrace))))
            (.seq (.starG .wsCh) (reLit [bq, bq, bq]))))))
    (.group 3 (.seq (.ch lbrace) (.seq (.starG .anyCh) (.ch rbrace))))

/-- Model of `match.group(n)` for a participating group. -/
def capLookup (n : Nat) (caps : List (Nat × List Char)) :
    Option (List Char) :=
  (caps.find? (fun kv => kv.1 == n)).map (fun kv => kv.2)

/-- Model of `match.group(2) or match.group(3)` (ollama.py line 346): Python
falsiness makes a missing or empty group 2 fall through to group 3
(group 2 can never capture an empty string here, since it always holds
at least a brace pair). -/
def groupTwoOrThree (caps : List (Nat × List Char)) : Option (List Char) :=
  match capLookup 2 caps with
  | some g => if g.isEmpty then capLookup 3 caps else some g
  | none => capLookup 3 caps

/-! ## json.loads — library model

`_parse_response` feeds the captured group to `json.loads`.  The parser
below implements the JSON grammar that `json.loads` accepts in its
default strict mode: values are objects, arrays, strings with the
standard escapes, numbers, `true`, `false`, `null`; trailing data after
the value is an error.  (`NaN`/`Infinity` literals and surrogate-pair
combination are outside the model; no input in this development uses
them.)  Numbers keep their lexeme, see `Json.num`. -/

/-- JSON inter-token whitespace: space, tab, newline, carriage return. -/
def jsonSkipWs : List Char → List Char
  | c :: t =>
    if c == ' ' || c == '\t' || c == '\n' || c == '\r' then jsonSkipWs t
    else c :: t
  | [] => []

/-- One hexadecimal digit. -/
def hexDigit (c : Char) : Option Nat :=
  if '0' ≤ c ∧ c ≤ '9' then some (c.toNat - 48)
  else if 'a' ≤ c ∧ c ≤ 'f' then some (c.toNat - 87)
  else if 'A' ≤ c ∧ c ≤ 'F' then some (c.toNat - 55)
  else none

/-- JSON string body after the opening quote, with the escapes of the
JSON grammar. -/
def parseJsonStringBody : Nat → List Char → Option (String × List Char)
  | 0, _ => none
  | fuel + 1, s =>
    match s with
    | [] => none
    | c :: t =>
      if c = '"' then some ("", t)
      else if c = '\\' then
        match t with
        | [] => none
        | e :: t2 =>
          let dec : Option (Char × List Char) :=
            if e = '"' then some ('"', t2)
            else if e = '\\' then some ('\\', t2)
            else if e = '/' then some ('/', t2)
            else if e = 'b' then some (Char.ofNat 8, t2)
            else if e = 'f' then some (Char.ofNat 12, t2)
            else if e = 'n' then some ('\n', t2)
            else if e = 'r' then some ('\r', t2)
            else if e = 't' then some ('\t', t2)
            else if e = 'u' then
              match t2 with
              | h1 :: h2 :: h3 :: h4 :: t3 =>
                match hexDigit h1, hexDigit h2, hexDigit h3, hexDigit h4 with
                | some a, some b, some c2, some d =>
                    some (Char.ofNat (a * 4096 + b * 256 + c2 * 16 + d), t3)
                | _, _, _, _ => none
              | _ => none
            else none
          match dec with
          | none => none
          | some (ch, rest) =>
            match parseJsonStringBody fuel rest with
            | some (str, rest2) => some (String.singleton ch ++ str, rest2)
            | none => none
      else if c.toNat < 32 then none
      else
        match parseJsonStringBody fuel t with
        | some (str, rest2) => some (String.singleton c ++ str, rest2)
        | none => none

/-- Longest digit run. -/
def takeDigits : List Char → List Char × List Char
  | c :: t =>
    if c.isDigit then
      let (d, r) := takeDigits t
      (c :: d, r)
    else ([], c :: t)
  | [] => ([], [])

/-- JSON number: `-? (0 | [1-9][0-9]*) (. digits)? ([eE][+-]? digits)?`;
as in the scanner of json.loads, an ill-formed optional part is simply
not consumed (leaving it as trailing data for the caller). -/
def parseJsonNumber (s : List Char) : Option (String × List Char) :=
  let (negPart, s1) :=
    match s with
    | c :: t => if c = '-' then ([c], t) else (([] : List Char), s)
    | [] => ([], ([] : List Char))
  match s1 with
  | [] => none
  | c :: t =>
    if !c.isDigit then none
    else
      let (ds, r) := takeDigits t
      if c = '0' ∧ ds ≠ [] then none
      else
        let (fracPart, r2) : List Char × List Char :=
          match r with
          | '.' :: fr =>
            let (fd, fr2) := takeDigits fr
            if fd.isEmpty then ([], r) else ('.' :: fd, fr2)
          | _ => ([], r)
        let (expPart, r3) : List Char × List Char :=
          match r2 with
          | e :: er =>
            if e = 'e' ∨ e = 'E' then
              let (sgn, er2) :=
                match er with
                | c2 :: t2 =>
                  if c2 = '+' ∨ c2 = '-' then ([c2], t2)
                  else (([] : List Char), er)
                | [] => ([], ([] : List Char))
              let (ed, er3) := takeDigits er2
              if ed.isEmpty then ([], r2) else (e :: (sgn ++ ed), er3)
            else ([], r2)
          | [] => ([], [])
        some (String.mk (negPart ++ (c :: ds) ++ fracPart ++ expPart), r3)

/-- Literal keyword tail. -/
def stripLit : List Char → List Char → Option (List Char)
  | [], s => some s
  | l :: ls, c :: t => if c = l then stripLit ls t else none
  | _ :: _, [] => none

mutual

/-- One JSON value, leading whitespace allowed. -/
def parseJsonValue : Nat → List Char → Option (Json × List Char)
  | 0, _ => none
  | fuel + 1, s =>
    match jsonSkipWs s with
    | [] => none
    | c :: t =>
      if c = '"' then
        (parseJsonStringBody (t.length + 1) t).map
          (fun p => (.str p.1, p.2))
      else if c = lbrace then
        match jsonSkipWs t with
        | [] => none
        | c2 :: t2 =>
          if c2 = rbrace then some (.obj [], t2)
          else
            (parseJsonMembers fuel (c2 :: t2)).map
              (fun p => (.obj p.1, p.2))
      else if c = '[' then
        match jsonSkipWs t with
        | [] => none
        | c2 :: t2 =>
          if c2 = ']' then some (.arr [], t2)
          else
            (parseJsonElements fuel (c2 :: t2)).map
              (fun p => (.arr p.1, p.2))
      else if c = 't' then
        (stripLit "rue".toList t).map (fun r => (.bool true, r))
      else if c = 'f' then
        (stripLit "alse".toList t).map (fun r => (.bool false, r))
      else if c = 'n' then
        (stripLit "ull".toList t).map (fun r => (.null, r))
      else
        (parseJsonNumber (c :: t)).map (fun p => (.num p.1, p.2))

/-- Object members, positioned at a key string. -/
def parseJsonMembers : Nat → List Char →
    Option (List (String × Json) × List Char)
  | 0, _ => none
  | fuel + 1, s =>
    match s with
    | [] => none
    | c :: t =>
      if c = '"' then
        match parseJsonStringBody (t.length + 1) t with
        | none => none
        | some (key, r) =>
          match jsonSkipWs r with
          | ':' :: r2 =>
            match parseJsonValue fuel r2 with
            | none => none
            | some (v, r3) =>
              match jsonSkipWs r3 with
              | ',' :: r4 =>
                match parseJsonMembers fuel (jsonSkipWs r4) with
                | some (rest, r5) => some ((key, v) :: rest, r5)
                | none => none
              | c5 :: r5 =>
                if c5 = rbrace then some ([(key, v)], r5) else none
              | [] => none
          | _ => none
      else none

/-- Array elements, positioned at a value. -/
def parseJsonElements : Nat → List Char → Option (List Json × List Char)
  | 0, _ => none
  | fuel + 1, s =>
    match parseJsonValue fuel s with
    | none => none
    | some (v, r) =>
      match jsonSkipWs r with
      | ',' :: r2 =>
        match parseJsonElements fuel r2 with
        | some (rest, r3) => some (v :: rest, r3)
        | none => none
      | ']' :: r2 => some ([v], r2)
      | _ => none

end

/-- Model of `json.loads`: one JSON document, nothing but whitespace after it.
The fuel bounds nesting recursion and exceeds what any input of this
length can need. -/
def jsonLoads (s : List Char) : Option Json :=
  match parseJsonValue (2 * s.length + 8) s with
  | some (v, rest) => if (jsonSkipWs rest).isEmpty then some v else none
  | none => none

/-! ## Ollama free-text tool-call scan —
src/mycoder/agent/llm/ollama.py lines 312-379 -/

/-- A plain text assistant message, as `_parse_response` builds it on
every non-tool-call path. -/
def textMessage (text : String) : Message :=
  { role := .assistant, content := Sum.inl text }

/-- Model of `not tools` (ollama.py line 330): a missing or empty tool list is
falsy. -/
def toolsFalsy : Option (List Json) → Bool
  | none => true
  | some ts => ts.isEmpty

/-- Model of `OllamaProvider._parse_response` (ollama.py lines 312-379).  The
`uuid.uuid4()` call is modelled by the externally supplied `freshId`.
The `.error` result models the pydantic `ValidationError` raised by the
`ToolCall(...)` constructor when the extracted `name` is not a string
or `arguments` is not a mapping — the surrounding
`except (json.JSONDecodeError, KeyError)` clause does not catch it, so
it escapes `_parse_response`. -/
def parse_response (freshId : String) (text : String)
    (tools : Option (List Json)) : Except Unit Message :=
  if toolsFalsy tools || text.toList.all isPyWs then
    .ok (textMessage text)
  else
    match reSearch FUNCTION_CALL_PATTERN text.toList with
    | none => .ok (textMessage text)
    | some caps =>
      match groupTwoOrThree caps with
      | none => .error ()
      | some jsonStr =>
        match jsonLoads jsonStr with
        | none => .ok (textMessage text)
        | some toolData =>
          if toolData.hasKey "name" && toolData.hasKey "arguments" then
            match toolData.get "name", toolData.get "arguments" with
            | some (.str toolName), some (.obj args) =>
                .ok { role := .assistant, content := Sum.inl "",
                      tool_calls :=
                        some [ToolCall.mk freshId toolName args none] }
            | _, _ => .error ()
          else
            .ok (textMessage text)

/-! ## Concrete fixtures used by witnesses -/

/-- A trivial tool body. -/
def echoRun : List (String × Json) → Except PyExc Json :=
  fun _ => .ok .null

/-- A concrete registrable tool class named `echo`. -/
def cEcho : ToolClass :=
  { name := "echo", description := "echo tool", argsSchema := [],
    run := echoRun }

/-- The `echo` tool instance. -/
def tEcho : Tool :=
  { name := "echo", description := "echo tool", argsSchema := [],
    run := echoRun }

/-- A manager that already holds `echo`. -/
def mEcho : ToolManager := { tools := [("echo", tEcho)] }

/-- A tool with one required string field `x`. -/
def tNeedsX : Tool :=
  { name := "needs_x", description := "needs x",
    argsSchema := [{ name := "x", ftype := .strT, required := true }],
    run := echoRun }

/-- Supervisor state tracking one running unit `A`. -/
def sOneRunning : SubAgentState := ⟨[("A", .running)]⟩

/-- A Message with an empty (but non-null) tool-call list. -/
def emptyCallsMessage : Message :=
  { role := .assistant, content := Sum.inl "", tool_calls := some [] }

/-- An Ollama response embedding two well-formed fenced tool-call JSON
objects. -/
def twoFencedText : String :=
  "```json\n\x7b\"name\": \"a\", \"arguments\": \x7b\x7d\x7d\n``` and " ++
  "```json\n\x7b\"name\": \"b\", \"arguments\": \x7b\x7d\x7d\n```"

/-- An Ollama response embedding one well-formed fenced tool-call JSON
object. -/
def oneFencedText : String :=
  "```json\n\x7b\"name\": \"a\", \"arguments\": \x7b\x7d\x7d\n```"

/-! ## Helper lemmas -/

/-- After `del d[a]`, `a` is no longer a key of `d`. -/
theorem lookup_filter_bne {β : Type} (l : List (String × β)) (a : String) :
    (l.filter (fun kv => kv.1 != a)).lookup a = none := by
  induction l with
  | nil => rfl
  | cons kv t ih =>
    rw [List.filter_cons]
    by_cases hk : kv.1 = a
    · simpa [hk] using ih
    · have hne : (kv.1 != a) = true := by simp [hk]
      rw [hne, if_pos rfl]
      have hba : (a == kv.1) = false := by
        simp [Ne.symm hk]
      simp [List.lookup, hba, ih]

/-- A successful lookup means some entry carries the key. -/
theorem any_key_of_lookup_some {β : Type} (l : List (String × β))
    (k : String) (v : β) (h : l.lookup k = some v) :
    l.any (fun kv => kv.1 == k) = true := by
  induction l with
  | nil => simp [List.lookup] at h
  | cons kv t ih =>
    rw [List.any_cons]
    by_cases hk : k = kv.1
    · simp [hk]
    · have hba : (k == kv.1) = false := by simp [hk]
      have ht : t.lookup k = some v := by
        simpa [List.lookup, hba] using h
      simp [ih ht]

/-- Python `d[k]` succeeding implies `"k" in d`. -/
theorem hasKey_of_get_some (j : Json) (k : String) (v : Json)
    (h : j.get k = some v) : j.hasKey k = true := by
  cases j with
  | obj members =>
    unfold Json.get at h
    unfold Json.hasKey
    have := any_key_of_lookup_some members.reverse k v h
    simpa [List.any_reverse] using this
  | null => simp [Json.get] at h
  | bool b => simp [Json.get] at h
  | num n => simp [Json.get] at h
  | str s => simp [Json.get] at h
  | arr xs => simp [Json.get] at h

/-! ## Claim theorems -/

/-- C1: For every tool manager state and every input (name, args),
`execute_tool` with `handle_errors = true` either returns the tool's
result or returns the structured error object built from the caught
exception's text and class name; it never lets an exception escape the
call. -/
theorem execute_tool_handle_errors_never_raises (m : ToolManager)
    (name : String) (arguments : List (String × Json)) :
    (∃ v, m.execute_tool name arguments true = .ok (.value v)) ∨
    (∃ err kind, m.execute_tool name arguments true =
      .ok (.errObj err kind)) := by
  cases h : (do
      let tool ← m.get_tool name
      tool.execute arguments : Except PyExc Json) with
  | ok v =>
    exact Or.inl ⟨v, by unfold ToolManager.execute_tool; rw [h]⟩
  | error e =>
    exact Or.inr ⟨_, _, by unfold ToolManager.execute_tool; rw [h]; rfl⟩

/-- C2: When a tool named `n` is already registered, registering another
tool class with the same name raises `ValueError` and leaves the whole
registry state exactly as it was: the mapping for `n` still holds the
original tool and no other entry is added, removed or modified. -/
theorem register_tool_duplicate_unchanged (m : ToolManager)
    (c : ToolClass) (t0 : Tool) (hname : ¬c.name = "")
    (hdesc : ¬c.description = "")
    (hdup : m.tools.lookup c.name = some t0) :
    m.register_tool c =
      (m, some (.valueError ("A tool with name " ++ sqs ++ c.name ++
        sqs ++ " is already registered"))) := by
  unfold ToolManager.register_tool ToolClass.instantiate
  rw [if_neg hname, if_neg hdesc]
  simp [hdup]

/-- Witness for C2 at a concrete registry already holding `echo`. -/
theorem register_tool_duplicate_unchanged_witness :
    mEcho.register_tool cEcho =
      (mEcho, some (.valueError ("A tool with name " ++ sqs ++ "echo" ++
        sqs ++ " is already registered"))) :=
  register_tool_duplicate_unchanged mEcho cEcho tEcho
    (by decide) (by decide) rfl

/-- C3: On a registry without a tool named `missing`, executing
`missing` with `handle_errors = true` returns the structured error
object whose error-kind field is the class name `ToolNotFoundError` of
the raised lookup error and whose error field is the descriptive
message built at tool_manager.py lines 170-173. -/
theorem execute_tool_missing_not_found_object (m : ToolManager)
    (h : m.tools.lookup "missing" = none) :
    m.execute_tool "missing" [] true =
      .ok (.errObj ("Error executing tool " ++ sqs ++ "missing" ++ sqs ++
          ": " ++ ("No tool found with name " ++ sqs ++ "missing" ++ sqs))
        "ToolNotFoundError") := by
  have hg : m.get_tool "missing" = .error (.toolNotFoundError
      ("No tool found with name " ++ sqs ++ "missing" ++ sqs)) := by
    unfold ToolManager.get_tool
    rw [h]
  unfold ToolManager.execute_tool
  rw [hg]
  rfl

/-- Witness for C3 on the empty registry. -/
theorem execute_tool_missing_not_found_object_witness :
    (ToolManager.mk []).execute_tool "missing" [] true =
      .ok (.errObj ("Error executing tool " ++ sqs ++ "missing" ++ sqs ++
          ": " ++ ("No tool found with name " ++ sqs ++ "missing" ++ sqs))
        "ToolNotFoundError") :=
  execute_tool_missing_not_found_object (ToolManager.mk []) rfl

/-- C4 (divergence witness): with `handle_errors = false` and a name
absent from the registry, `execute_tool` does not raise
`ToolNotFoundError` as its own docstring (tool_manager.py line 151) and
the spec state: the `except` block wraps the lookup failure — which is
not a `ToolExecutionError` subclass — into a `ToolExecutionError`
(lines 176-181), so the escaping exception kind is
`ToolExecutionError`. -/
theorem execute_tool_missing_raises_wrapped :
    (ToolManager.mk []).execute_tool "missing" [] false =
      .error (.toolExecutionError "Failed to execute tool" "missing"
        (some (.toolNotFoundError ("No tool found with name " ++ sqs ++
          "missing" ++ sqs)))) ∧
    (PyExc.toolExecutionError "Failed to execute tool" "missing"
      (some (.toolNotFoundError ("No tool found with name " ++ sqs ++
        "missing" ++ sqs)))).typeName = "ToolExecutionError" := by
  exact ⟨rfl, rfl⟩

/-- C5 (divergence witness): on invalid arguments — here a tool whose
schema requires field `x`, called with no arguments — the tool body is
never invoked (the outcome is identical for every `run` body), but what
escapes `Tool.execute` is the bare `TypeError` from the botched
re-raise at base.py line 58, whose kind names no offending field, not
the structured field-identifying validation error that the claim, the
spec and the docstring of `validate_args` (base.py lines 50-52)
describe. -/
theorem tool_execute_invalid_args_type_error_no_run :
    tNeedsX.execute [] = .error pydanticReRaiseTypeError ∧
    pydanticReRaiseTypeError.typeName = "TypeError" ∧
    (∀ run2, Tool.execute { tNeedsX with run := run2 } [] =
      .error pydanticReRaiseTypeError) :=
  ⟨rfl, rfl, fun _ => rfl⟩

/-- C6 counterexample: an assistant message whose `toolCalls` is an
empty (non-null) list makes `is_tool_call` return `true`, while the
claim requires `false` for an empty list. -/
theorem is_tool_call_empty_list_counterexample :
    emptyCallsMessage.is_tool_call = true ∧
    emptyCallsMessage.role = .assistant ∧
    emptyCallsMessage.tool_calls = some [] :=
  ⟨rfl, rfl, rfl⟩

/-- C6 amended: `is_tool_call` returns true iff the role is assistant
and `toolCalls` is non-null — an empty list also counts, since the
source checks only `is not None` (llm/base.py line 65). -/
theorem is_tool_call_iff_role_and_not_none (m : Message) :
    m.is_tool_call = true ↔
      (m.role = .assistant ∧ m.tool_calls ≠ none) := by
  unfold Message.is_tool_call
  rw [Bool.and_eq_true, beq_iff_eq, Option.isSome_iff_ne_none]

/-- C8: After any transition that takes a tracked unit to a terminal
state, the unit is no longer tracked, `get_status` on its id returns
the same record — the not-found error record, since every terminal
transition removes the unit from `_running_agents` — on the first and
on every repeated call, and the query itself performs no state
transition. -/
theorem sub_agent_status_idempotent_after_terminal (s : SubAgentState)
    (agentId : String) (s2 : SubAgentState)
    (h : TerminalStep s agentId s2) :
    s2.runningAgents.lookup agentId = none ∧
    s2.get_status agentId = (s2, notFoundStatus agentId) ∧
    (s2.get_status agentId).1.get_status agentId =
      s2.get_status agentId := by
  have hnone : s2.runningAgents.lookup agentId = none := by
    cases h with
    | finishOk ha => exact lookup_filter_bne s.runningAgents agentId
    | finishErr ha => exact lookup_filter_bne s.runningAgents agentId
    | cancelConsume t ha => exact lookup_filter_bne s.runningAgents agentId
  have hst : s2.get_status agentId = (s2, notFoundStatus agentId) := by
    unfold SubAgentState.get_status
    rw [hnone]
  refine ⟨hnone, hst, ?_⟩
  rw [hst]
  exact hst

/-- Witness for C8: the unit `A` finishes; its entry is gone and
repeated status queries agree. -/
theorem sub_agent_status_idempotent_after_terminal_witness :
    (sOneRunning.remove "A").runningAgents.lookup "A" = none ∧
    (sOneRunning.remove "A").get_status "A" =
      (sOneRunning.remove "A", notFoundStatus "A") ∧
    ((sOneRunning.remove "A").get_status "A").1.get_status "A" =
      (sOneRunning.remove "A").get_status "A" :=
  sub_agent_status_idempotent_after_terminal sOneRunning "A" _
    (.finishOk sOneRunning "A" rfl)

/-- C9: `create_provider` on any identifier outside the supported set
fails fast with a `ValueError` whose message names the requested
identifier and the supported set, and on each supported identifier it
returns the adapter of exactly that backend. -/
theorem create_provider_fail_fast (p : String) :
    (¬p = "openai" → ¬p = "anthropic" → ¬p = "ollama" →
      create_provider p = .error (.valueError
        ("Unsupported provider type: " ++ p ++ ". Supported types: " ++
          supportedTypesRepr))) ∧
    create_provider "openai" = .ok .openai ∧
    create_provider "anthropic" = .ok .anthropic ∧
    create_provider "ollama" = .ok .ollama := by
  refine ⟨fun h1 h2 h3 => ?_, rfl, rfl, rfl⟩
  unfold create_provider
  rw [if_neg h1, if_neg h2, if_neg h3]

/-- Witness for C9 at the unsupported identifier `gemini`. -/
theorem create_provider_fail_fast_witness :
    create_provider "gemini" = .error (.valueError
      ("Unsupported provider type: " ++ "gemini" ++
        ". Supported types: " ++ supportedTypesRepr)) :=
  (create_provider_fail_fast "gemini").1 (by decide) (by decide)
    (by decide)

/-- C10: schema generation ignores the provider argument entirely: for
every tool and every pair of provider identifiers the per-tool schema
and the registry's full schema list are identical. -/
theorem schemas_ignore_provider (t : Tool) (m : ToolManager)
    (p1 p2 : String) :
    t.get_schema_for_llm p1 = t.get_schema_for_llm p2 ∧
    m.get_tool_schemas_for_llm p1 = m.get_tool_schemas_for_llm p2 :=
  ⟨rfl, rfl⟩

/-- C7 amended: on the free-text scan of `_parse_response`, (a) every
returned message carries either no tool-call list or exactly one tool
call — never more; (b) when the pattern finds no match the result is
the plain text message; (c) when the extracted first match is
malformed JSON the result is the plain text message; (d) when tools
were supplied, the text is not blank, and the first match extracts a
JSON object whose `name` is a string and whose `arguments` is an
object, the result is an assistant message with empty text body and
exactly that one tool call.  (Multiple embedded objects do not fall
back to plain text; only the first match decides, see the C7
counterexample.) -/
theorem parse_response_scan_properties (freshId text : String)
    (tools : Option (List Json)) :
    (∀ msg, parse_response freshId text tools = .ok msg →
      msg.tool_calls = none ∨ ∃ tc, msg.tool_calls = some [tc]) ∧
    (reSearch FUNCTION_CALL_PATTERN text.toList = none →
      parse_response freshId text tools = .ok (textMessage text)) ∧
    (∀ caps jsonStr,
      reSearch FUNCTION_CALL_PATTERN text.toList = some caps →
      groupTwoOrThree caps = some jsonStr →
      jsonLoads jsonStr = none →
      parse_response freshId text tools = .ok (textMessage text)) ∧
    (∀ caps jsonStr toolData toolName args,
      toolsFalsy tools = false →
      text.toList.all isPyWs = false →
      reSearch FUNCTION_CALL_PATTERN text.toList = some caps →
      groupTwoOrThree caps = some jsonStr →
      jsonLoads jsonStr = some toolData →
      toolData.get "name" = some (.str toolName) →
      toolData.get "arguments" = some (.obj args) →
      parse_response freshId text tools =
        .ok { role := .assistant, content := Sum.inl "",
              tool_calls :=
                some [ToolCall.mk freshId toolName args none] }) := by
  refine ⟨?_, ?_, ?_, ?_⟩
  · intro msg h
    unfold parse_response at h
    split at h
    · injection h with h2
      rw [← h2]
      exact Or.inl rfl
    · split at h
      · injection h with h2
        rw [← h2]
        exact Or.inl rfl
      · split at h
        · exact absurd h (by simp)
        · split at h
          · injection h with h2
            rw [← h2]
            exact Or.inl rfl
          · split at h
            · split at h
              · injection h with h2
                rw [← h2]
                exact Or.inr ⟨_, rfl⟩
              · exact absurd h (by simp)
            · injection h with h2
              rw [← h2]
              exact Or.inl rfl
  · intro hnone
    unfold parse_response
    split
    · rfl
    · rw [hnone]
  · intro caps jsonStr hsearch hgroup hload
    have hsearch2 : reSearch FUNCTION_CALL_PATTERN text.data = some caps :=
      hsearch
    unfold parse_response
    split
    · rfl
    · simp [hsearch2, hgroup, hload]
  · intro caps jsonStr toolData toolName args hfal hblank hsearch hgroup
      hload hname hargs
    have hsearch2 : reSearch FUNCTION_CALL_PATTERN text.data = some caps :=
      hsearch
    have hblank2 : text.data.all isPyWs = false := hblank
    have hkn : toolData.hasKey "name" = true :=
      hasKey_of_get_some toolData "name" _ hname
    have hka : toolData.hasKey "arguments" = true :=
      hasKey_of_get_some toolData "arguments" _ hargs
    unfold parse_response
    simp [hfal, hblank2, hsearch2, hgroup, hload, hkn, hka, hname, hargs]

/-- Witness for C7 on a response holding one fenced tool-call object
(conjunct (d)) and on a response with no embedded object
(conjunct (b)). -/
theorem parse_response_scan_properties_witness :
    parse_response "u0" oneFencedText (some [Json.obj []]) =
      .ok { role := .assistant, content := Sum.inl "",
            tool_calls := some [ToolCall.mk "u0" "a" [] none] } ∧
    parse_response "u0" "plain text, no calls" (some [Json.obj []]) =
      .ok (textMessage "plain text, no calls") :=
  ⟨(parse_response_scan_properties "u0" oneFencedText
      (some [Json.obj []])).2.2.2 _ _ _ _ _ rfl rfl rfl rfl rfl rfl rfl,
   (parse_response_scan_properties "u0" "plain text, no calls"
      (some [Json.obj []])).2.1 rfl⟩

/-- C7 counterexample: a response embedding two well-formed fenced
tool-call JSON objects does not fall back to a plain text message —
the scan takes its first match and emits the first object's tool
call. -/
theorem parse_response_two_objects_counterexample :
    parse_response "uid-0" twoFencedText (some [Json.obj []]) =
      .ok { role := .assistant, content := Sum.inl "",
            tool_calls := some [ToolCall.mk "uid-0" "a" [] none] } ∧
    (ToolCall.mk "uid-0" "a" [] none).name = "a" := ⟨rfl, rfl⟩

end MyCoder
